import Mathlib

set_option maxRecDepth 100000

/-!
Verification of the spain-EV-registrations processing pipeline.

The definitions below are a shallow embedding of `src/ev_processor.py`
(the authoritative variant of the classifier/extractor per the spec's
design notes): lines are `List Char`, Python's `re.search` over the three
fixed BEV patterns is translated into explicit leftmost-scan matchers
(each pattern is deterministic: every quantifier is followed by a literal
or a disjoint character class, so greedy matching without backtracking is
exact), and the pandas month aggregation is translated into list
operations.  Python `\d`, `\s`, `\w` and `str.upper` are modelled at
ASCII granularity; all concrete inputs used below are ASCII.
-/

/-- Python `\s` whitespace class (ASCII part), also used by `str.strip`. -/
def pySpace (c : Char) : Bool :=
  c == ' ' || c == '\t' || c == '\n' || c == '\r' || c == '\x0b' || c == '\x0c'

/-- Python `\w` word-character class (ASCII part): used for `\b` boundaries. -/
def isWordChar (c : Char) : Bool := c.isAlphanum || c == '_'

/-- Python `str.strip()`: drop whitespace from both ends. -/
def pyStrip (l : List Char) : List Char :=
  ((l.dropWhile pySpace).reverse.dropWhile pySpace).reverse

/-- Python slice `line[a:b]` for `0 <= a <= b` (clamping at the end). -/
def pySlice (l : List Char) (a b : Nat) : List Char := (l.drop a).take (b - a)

/-- `matchesAt s pat` holds when `pat` is an initial segment of `s`
(a literal regex piece matching at the current position). -/
def matchesAt : List Char → List Char → Bool
  | _, [] => true
  | [], _ :: _ => false
  | c :: s, d :: p => c == d && matchesAt s p

/-- Python `pat in s`: substring containment. -/
def containsSub (pat : List Char) : List Char → Bool
  | [] => matchesAt [] pat
  | c :: rest => matchesAt (c :: rest) pat || containsSub pat rest

/-- Python `line.upper()` (ASCII part). -/
def upperLine (l : List Char) : List Char := l.map Char.toUpper

def sBEV : List Char := ['B', 'E', 'V']

def sELECTRIC : List Char := "ELECTRIC".data

def sHYBRID : List Char := "HYBRID".data

def sEVEHICLE : List Char := "E-VEHICLE".data

/-- Regex `\d+BEV\s+\d+` (group 1 = whole match) tried at the current
position: a maximal nonempty digit run, then literal `BEV`, then a
maximal nonempty whitespace run, then a maximal nonempty digit run.
Backtracking inside the quantifiers can never rescue a failure here
(shortening a digit run leaves a digit where `B` is required, shortening
a whitespace run leaves whitespace where a digit is required), so the
greedy reading is the exact Python semantics. -/
def p1At (s : List Char) : Option (List Char) :=
  let ds := s.takeWhile Char.isDigit
  if ds.isEmpty then none
  else
    let r1 := s.drop ds.length
    if matchesAt r1 sBEV then
      let r2 := r1.drop 3
      let ws := r2.takeWhile pySpace
      if ws.isEmpty then none
      else
        let r3 := r2.drop ws.length
        let ds2 := r3.takeWhile Char.isDigit
        if ds2.isEmpty then none else some (ds ++ sBEV ++ ws ++ ds2)
    else none

/-- Regex `BEV\s+\d{5,}` (group 1 = whole match) tried at the current
position. -/
def p2At (s : List Char) : Option (List Char) :=
  if matchesAt s sBEV then
    let r1 := s.drop 3
    let ws := r1.takeWhile pySpace
    if ws.isEmpty then none
    else
      let r2 := r1.drop ws.length
      let ds := r2.takeWhile Char.isDigit
      if ds.length < 5 then none else some (sBEV ++ ws ++ ds)
  else none

/-- Regex `\d{3,}BEV` (group 1 = whole match) tried at the current
position. -/
def p3At (s : List Char) : Option (List Char) :=
  let ds := s.takeWhile Char.isDigit
  if ds.length < 3 then none
  else if matchesAt (s.drop ds.length) sBEV then some (ds ++ sBEV) else none

/-- `re.search` driver: try the pattern at every position left to right
and return the leftmost match. -/
def searchCap (f : List Char → Option (List Char)) : List Char → Option (List Char)
  | [] => f []
  | c :: rest =>
    match f (c :: rest) with
    | some m => some m
    | none => searchCap f rest

/-- Regex piece `BEV\b\s*$` at the current position: literal `BEV`,
a word boundary after it, then only whitespace up to the end. -/
def bareBEVEndAt (s : List Char) : Bool :=
  matchesAt s sBEV &&
    (let rest := s.drop 3
     (match rest with
      | [] => true
      | c :: _ => !isWordChar c) && rest.all pySpace)

/-- Scanner for `re.search(r'\bBEV\b\s*$', line)`: `prevWord` records
whether the previous character is a word character (for the leading
`\b`). -/
def trailingBareBEVAux (prevWord : Bool) : List Char → Bool
  | [] => false
  | c :: rest =>
    (!prevWord && bareBEVEndAt (c :: rest)) || trailingBareBEVAux (isWordChar c) rest

/-- `re.search(r'\bBEV\b\s*$', line)` as a Boolean: `BEV` occurs as a
trailing word-bounded token followed only by whitespace. -/
def hasTrailingBareBEV (l : List Char) : Bool := trailingBareBEVAux false l

/-- Regex `E-[A-Z]+` tried at the current position. -/
def ePatternAt (s : List Char) : Bool :=
  matchesAt s ['E', '-'] &&
    (match s.drop 2 with
     | c :: _ => 'A' ≤ c && c ≤ 'Z'
     | [] => false)

/-- `re.search(r'E-[A-Z]+', line)` as a Boolean. -/
def hasEPattern : List Char → Bool
  | [] => false
  | c :: rest => ePatternAt (c :: rest) || hasEPattern rest

/-- The secondary signal of `EVProcessor.is_ev` (lines 47-49):
`('ELECTRIC' in line.upper() or re.search(r'E-[A-Z]+', line)) and
'HYBRID' not in line.upper()`. -/
def secondarySignal (line : List Char) : Bool :=
  (containsSub sELECTRIC (upperLine line) || hasEPattern line) &&
    !containsSub sHYBRID (upperLine line)

/-- `EVProcessor.is_ev` (src/ev_processor.py lines 27-51).  The Python
loop `for pattern in ev_patterns: if re.search(pattern, line): if not
re.search(r'\bBEV\b\s*$', line): return True` returns true exactly when
some pattern matches and the trailing-bare-BEV exclusion fails; since
the exclusion test is identical in every iteration, the loop falls
through to the secondary check whenever the exclusion holds. -/
def is_ev (line : List Char) : Bool :=
  if line.length < 200 then false
  else
    if (searchCap p1At line).isSome || (searchCap p2At line).isSome
        || (searchCap p3At line).isSome then
      if hasTrailingBareBEV line then secondarySignal line else true
    else secondarySignal line

/-- The record extracted from one line (the dict built by
`EVProcessor.extract_vehicle_info`; every key is set whenever a record
is returned, with `COMBUSTIBLE` required by the validation gate). -/
structure Record where
  date : List Char
  MARCA : List Char
  MODELO : List Char
  VIN : List Char
  COMBUSTIBLE : List Char
  deriving DecidableEq

/-- The `COMBUSTIBLE` resolution chain of `extract_vehicle_info`
(lines 76-87): the three BEV patterns in order, each captured verbatim
and stripped, then the `ELECTRIC` fallback, then the `E-VEHICLE`
fallback. -/
def fuelSignature (line : List Char) : Option (List Char) :=
  match searchCap p1At line with
  | some m => some (pyStrip m)
  | none =>
    match searchCap p2At line with
    | some m => some (pyStrip m)
    | none =>
      match searchCap p3At line with
      | some m => some (pyStrip m)
      | none =>
        if containsSub sELECTRIC (upperLine line)
            && !containsSub sHYBRID (upperLine line) then some sELECTRIC
        else if hasEPattern line && !containsSub sHYBRID (upperLine line) then
          some sEVEHICLE
        else none

/-- `EVProcessor.extract_vehicle_info` (src/ev_processor.py lines
53-97).  Positional slices for date/make/model/vin, the fuel-signature
chain, then the validation gate: empty `MARCA`, empty `MODELO`, missing
`COMBUSTIBLE` or `COMBUSTIBLE == 'BEV'` all yield the empty dict
(modelled as `none`). -/
def extract_vehicle_info (line : List Char) : Option Record :=
  if line.length < 200 then none
  else
    match fuelSignature line with
    | none => none
    | some comb =>
      if pyStrip (pySlice line 9 39) = [] then none
      else if pyStrip (pySlice line 39 69) = [] then none
      else if comb = sBEV then none
      else
        some { date := pyStrip (pySlice line 0 9)
               MARCA := pyStrip (pySlice line 9 39)
               MODELO := pyStrip (pySlice line 39 69)
               VIN := pyStrip (pySlice line 69 92)
               COMBUSTIBLE := comb }

/-- Right-pad with spaces to width `n` (Python `str.ljust`). -/
def padTo (n : Nat) (l : List Char) : List Char :=
  l ++ List.replicate (n - l.length) ' '

/-- Scenario line of C3: date field, make field `"0 TESLA"`, model field
`"MODEL3"`, a VIN, inert filler, and `"1000BEV 123456"` at the fuel-info
offset 200. -/
def exLine3 : List Char :=
  padTo 9 "20250228".data ++ padTo 30 "0 TESLA".data ++ padTo 30 "MODEL3".data
    ++ padTo 23 "VTESTVIN12345".data ++ List.replicate 108 'X'
    ++ "1000BEV 123456".data ++ List.replicate 6 ' '

/-- The record `extract_vehicle_info` produces on `exLine3`. -/
def exRec3 : Record :=
  { date := "20250228".data
    MARCA := "0 TESLA".data
    MODELO := "MODEL3".data
    VIN := "VTESTVIN12345".data
    COMBUSTIBLE := "1000BEV 123456".data }


/-- A `Record` together with the file-date metadata attached by
`process_file` (`registration_date` as `(year, month, day)`; the
Python `year`/`month`/`day` columns are its projections). -/
structure DatedRecord where
  date : List Char
  MARCA : List Char
  MODELO : List Char
  VIN : List Char
  COMBUSTIBLE : List Char
  registration_date : Nat × Nat × Nat
  deriving DecidableEq

/-- One source file: its (base)name and its physical lines. -/
structure SourceFile where
  name : List Char
  lines : List (List Char)
  deriving DecidableEq

/-- The literal `export_mat_` of the filename regex. -/
def tagExport : List Char := "export_mat_".data

def dotTxt : List Char := ".txt".data

/-- Regex `export_mat_(\d{8})\.txt` tried at the current position:
the literal tag, exactly 8 digits (group 1), then literal `.txt`. -/
def tryExportAt (s : List Char) : Option (List Char) :=
  if matchesAt s tagExport then
    let ds := (s.drop 11).take 8
    if ds.length == 8 && ds.all Char.isDigit && matchesAt (s.drop 19) dotTxt then
      some ds
    else none
  else none

/-- Value of an ASCII digit string. -/
def digitsToNat (l : List Char) : Nat :=
  l.foldl (fun n c => 10 * n + (c.toNat - 48)) 0

def isLeap (y : Nat) : Bool := (y % 4 == 0 && y % 100 != 0) || y % 400 == 0

def daysInMonth (y m : Nat) : Nat :=
  if m == 2 then (if isLeap y then 29 else 28)
  else if m == 4 || m == 6 || m == 9 || m == 11 then 30
  else 31

/-- The dates accepted by `datetime.strptime(s, '%Y%m%d')`. -/
def validDate (y m d : Nat) : Bool :=
  decide (1 ≤ y) && decide (y ≤ 9999) && decide (1 ≤ m) && decide (m ≤ 12)
    && decide (1 ≤ d) && decide (d ≤ daysInMonth y m)

/-- File-date derivation of `process_file` (lines 104-109): search the
filename for `export_mat_(\d{8})\.txt`, then parse the 8 digits with
`strptime('%Y%m%d')`.  A failed regex makes the file return an empty
frame; an invalid date raises, which `process_month`'s per-file handler
swallows — both are modelled as `none` (the file contributes nothing). -/
def parseFileDate (name : List Char) : Option (Nat × Nat × Nat) :=
  match searchCap tryExportAt name with
  | none => none
  | some ds =>
    let y := digitsToNat (ds.take 4)
    let m := digitsToNat ((ds.drop 4).take 2)
    let d := digitsToNat (ds.drop 6)
    if validDate y m d then some (y, m, d) else none

/-- Per-line step of the primary-encoding pass of `process_file`
(lines 115-129): strip, skip blank lines, classify, extract, attach the
file date. -/
def processLine (fd : Nat × Nat × Nat) (raw : List Char) : Option DatedRecord :=
  let line := pyStrip raw
  if line = [] then none
  else if is_ev line then
    match extract_vehicle_info line with
    | some r =>
      some { date := r.date, MARCA := r.MARCA, MODELO := r.MODELO, VIN := r.VIN
             COMBUSTIBLE := r.COMBUSTIBLE, registration_date := fd }
    | none => none
  else none

/-- Per-line step of the utf-8 fallback pass (lines 134-143): the
fallback loop strips inline and does not skip blank lines (a blank line
fails `is_ev` anyway). -/
def processLineFallback (fd : Nat × Nat × Nat) (raw : List Char) : Option DatedRecord :=
  if is_ev (pyStrip raw) then
    match extract_vehicle_info (pyStrip raw) with
    | some r =>
      some { date := r.date, MARCA := r.MARCA, MODELO := r.MODELO, VIN := r.VIN
             COMBUSTIBLE := r.COMBUSTIBLE, registration_date := fd }
    | none => none
  else none

/-- `EVProcessor.process_file` (lines 99-153) on a run in which the
primary latin1 pass completes without an exception (with
`errors='replace'` a decode problem never raises, so this is the normal
path). -/
def process_file (f : SourceFile) : List DatedRecord :=
  match parseFileDate f.name with
  | none => []
  | some fd => f.lines.filterMap (processLine fd)

/-- `EVProcessor.process_file` on a run in which the primary pass raises
after having processed the first `abortAfter` lines and the utf-8
fallback pass then reprocesses the whole file (lines 130-143).  The
Python `records` list is NOT reset in the `except` branch, so the
records accumulated by the aborted primary pass stay in front of the
fallback pass's records. -/
def process_file_withFallback (f : SourceFile) (abortAfter : Nat) : List DatedRecord :=
  match parseFileDate f.name with
  | none => []
  | some fd =>
    (f.lines.take abortAfter).filterMap (processLine fd)
      ++ f.lines.filterMap (processLineFallback fd)

/-- The merge step of `process_month` (lines 172-190): per-file record
lists, empty ones dropped (only non-empty frames are appended to
`all_data`), concatenated in file order. -/
def monthRecords (files : List SourceFile) : List DatedRecord :=
  ((files.map process_file).filter (fun l => !l.isEmpty)).flatten

/-- Keep-first deduplication with an explicit set of already-seen keys
(pandas `drop_duplicates(subset=...)`, default `keep='first'`). -/
def dedupByAux {α K : Type} [DecidableEq K] (key : α → K) (seen : List K) :
    List α → List α
  | [] => []
  | r :: rs =>
    if key r ∈ seen then dedupByAux key seen rs
    else r :: dedupByAux key (key r :: seen) rs

def dedupBy {α K : Type} [DecidableEq K] (key : α → K) (l : List α) : List α :=
  dedupByAux key [] l

def vinDateKey (r : DatedRecord) : List Char × Nat × Nat × Nat :=
  (r.VIN, r.registration_date)

def makeModelDateKey (r : DatedRecord) : List Char × List Char × Nat × Nat × Nat :=
  (r.MARCA, r.MODELO, r.registration_date)

/-- The dedup step of `process_month` (lines 192-196).  The code
branches on `'VIN' in combined_data.columns`; since
`extract_vehicle_info` sets the `VIN` key unconditionally, every record
of the combined frame carries that column, so the branch condition is
true whenever the step runs — it is kept as the explicit
`hasVINColumn` argument. -/
def dedupCombined (hasVINColumn : Bool) (recs : List DatedRecord) : List DatedRecord :=
  if hasVINColumn then dedupBy vinDateKey recs
  else dedupBy makeModelDateKey recs

/-- Modelled from the spec: set-wide dedup key choice — if any record of
the merged set has a non-empty `vin`, every record is deduplicated on
`(vin, registration_date)`; only when no record has a non-empty `vin`
is the key `(make, model, registration_date)`.  This definition follows
the spec's words and exists only to be compared with the code's
`dedupCombined`. -/
def specDedup (recs : List DatedRecord) : List DatedRecord :=
  if recs.any (fun r => !r.VIN.isEmpty) then dedupBy vinDateKey recs
  else dedupBy makeModelDateKey recs

/-- Decimal digits of a natural number (fuel-based core function, so it
reduces definitionally). -/
def natDigits (n : Nat) : List Char := Nat.toDigits 10 n

/-- Python `f"{m:02d}"`. -/
def pad2 (n : Nat) : List Char := if n < 10 then '0' :: natDigits n else natDigits n

/-- Output path `f"{report_dir}/ev_data_{year}_{month:02d}.csv"` with the
default `report_dir='report'`. -/
def outName (y m : Nat) : List Char :=
  "report/ev_data_".data ++ natDigits y ++ "_".data ++ pad2 m ++ ".csv".data

def endsWith (s pat : List Char) : Bool := matchesAt s.reverse pat.reverse

/-- The discovery step `glob.glob(f"{data_dir}/export_mat_{year}{month:02d}*.txt")`
over the modelled source files (names are basenames; the directory part
of the pattern is the implicit source directory). -/
def globMonth (y m : Nat) (files : List SourceFile) : List SourceFile :=
  files.filter fun f =>
    matchesAt f.name (tagExport ++ natDigits y ++ pad2 m) && endsWith f.name dotTxt

def renderDate (d : Nat × Nat × Nat) : List Char :=
  natDigits d.1 ++ '-' :: pad2 d.2.1 ++ '-' :: pad2 d.2.2

/-- One CSV row of the persisted dataset (representative rendering; the
exact pandas `to_csv` byte format is not load-bearing for any claim). -/
def renderRow (r : DatedRecord) : List Char :=
  r.date ++ ',' :: r.MARCA ++ ',' :: r.MODELO ++ ',' :: r.VIN ++ ','
    :: r.COMBUSTIBLE ++ ',' :: renderDate r.registration_date ++ ','
    :: natDigits r.registration_date.1 ++ ',' :: natDigits r.registration_date.2.1
    ++ ',' :: natDigits r.registration_date.2.2 ++ ['\n']

def csvHeader : List Char :=
  "date,MARCA,MODELO,VIN,COMBUSTIBLE,registration_date,year,month,day\n".data

def renderCSV (rs : List DatedRecord) : List Char :=
  csvHeader ++ (rs.map renderRow).flatten

/-- The file system seen by `process_month`: the persisted report files
and the available source files. -/
structure FileSys where
  reports : List (List Char × List Char)
  sources : List SourceFile
  deriving DecidableEq

/-- `EVProcessor.process_month` (lines 155-204).  Result: the file
system after the call, the returned path (`[]` models the empty-string
"no data" result) and the list of source files that were opened and
read.  The short-circuit (lines 160-162) returns before any glob or
read happens. -/
def process_month (fs : FileSys) (y m : Nat) (force : Bool) :
    FileSys × List Char × List (List Char) :=
  if (fs.reports.lookup (outName y m)).isSome && !force then
    (fs, outName y m, [])
  else
    let files := globMonth y m fs.sources
    if files.isEmpty then (fs, [], [])
    else
      let recs := monthRecords files
      if recs.isEmpty then (fs, [], [])
      else
        let deduped := dedupCombined true recs
        ({ reports := (outName y m, renderCSV deduped) :: fs.reports
           sources := fs.sources },
         outName y m, files.map SourceFile.name)

/-- Counterexample line for C1: a primary pattern and the token
`ELECTRIC` both occur, no `HYBRID`, and the line ends with a bare
whitespace-bounded `BEV`. -/
def exCe1 : List Char :=
  padTo 9 "20250228".data ++ padTo 30 "TESLA".data ++ padTo 30 "MODEL3".data
    ++ List.replicate 23 ' ' ++ List.replicate 100 'X' ++ "ELECTRIC".data
    ++ "1000BEV 12345".data ++ " BEV".data

/-- Counterexample line for C5: a primary pattern occurs, the line ends
with a bare `BEV`, and no secondary signal (`ELECTRIC`/`E-`) is
present. -/
def exCe5 : List Char :=
  padTo 9 "20250228".data ++ padTo 30 "SOMEMAKE".data ++ padTo 30 "MODELX".data
    ++ List.replicate 23 ' ' ++ List.replicate 108 'X'
    ++ "1000BEV 12345".data ++ " BEV".data

/-- The record `extract_vehicle_info` produces on `exCe5`. -/
def exRec5 : Record :=
  { date := "20250228".data
    MARCA := "SOMEMAKE".data
    MODELO := "MODELX".data
    VIN := []
    COMBUSTIBLE := "1000BEV 12345".data }

/-- Short line ending in a bare `BEV`, used as the C1 witness input. -/
def exW1 : List Char := "NO BEV".data

/-- A source file holding one EV line, with a well-formed name. -/
def exFile : SourceFile :=
  { name := "export_mat_20250228.txt".data, lines := [exLine3] }

/-- The dated record `process_file` produces from `exFile`. -/
def exDated : DatedRecord :=
  { date := "20250228".data
    MARCA := "0 TESLA".data
    MODELO := "MODEL3".data
    VIN := "VTESTVIN12345".data
    COMBUSTIBLE := "1000BEV 123456".data
    registration_date := (2025, 2, 28) }

/-- A source file whose name has no parseable 8-digit date. -/
def badFile : SourceFile :=
  { name := "export_mat_2025.txt".data, lines := [exLine3] }

/-- Two merged records with empty `vin`, the same registration date and
distinct makes and models (C2 counterexample input). -/
def recA : DatedRecord :=
  { date := "20250201".data
    MARCA := "MAKEA".data
    MODELO := "MODA".data
    VIN := []
    COMBUSTIBLE := "1000BEV 11111".data
    registration_date := (2025, 2, 1) }

def recB : DatedRecord :=
  { date := "20250201".data
    MARCA := "MAKEB".data
    MODELO := "MODB".data
    VIN := []
    COMBUSTIBLE := "1000BEV 22222".data
    registration_date := (2025, 2, 1) }

/-- A file system whose report for February 2025 already exists. -/
def exFs : FileSys :=
  { reports := [(outName 2025 2, "OLDCSV".data)], sources := [exFile] }


/-- Keys surviving keep-first dedup: a key occurs among the kept records
exactly when it occurs in the input and is not already marked seen. -/
theorem dedupByAux_key_mem {α K : Type} [DecidableEq K] (key : α → K) :
    ∀ (l : List α) (seen : List K) (k : K),
      k ∈ (dedupByAux key seen l).map key ↔ k ∈ l.map key ∧ k ∉ seen := by
  intro l
  induction l with
  | nil => intro seen k; simp [dedupByAux]
  | cons r rs ih =>
    intro seen k
    by_cases hr : key r ∈ seen
    · rw [dedupByAux, if_pos hr, ih]
      simp only [List.map_cons, List.mem_cons]
      constructor
      · rintro ⟨hm, hs⟩
        exact ⟨Or.inr hm, hs⟩
      · rintro ⟨hor, hs⟩
        rcases hor with he | hm
        · exact absurd (he ▸ hr) hs
        · exact ⟨hm, hs⟩
    · rw [dedupByAux, if_neg hr]
      simp only [List.map_cons, List.mem_cons, ih, List.mem_cons]
      constructor
      · rintro (he | ⟨hm, hs⟩)
        · exact ⟨Or.inl he, he ▸ hr⟩
        · exact ⟨Or.inr hm, fun hk => hs (Or.inr hk)⟩
      · rintro ⟨hor, hs⟩
        rcases hor with he | hm
        · exact Or.inl he
        · by_cases hek : k = key r
          · exact Or.inl hek
          · refine Or.inr ⟨hm, ?_⟩
            rintro (hc | hc)
            · exact hek hc
            · exact hs hc

/-- A record kept by the dedup never has a key that was already seen. -/
theorem dedupByAux_notin_seen {α K : Type} [DecidableEq K] (key : α → K)
    (l : List α) (seen : List K) (x : α)
    (hx : x ∈ dedupByAux key seen l) : key x ∉ seen :=
  ((dedupByAux_key_mem key l seen (key x)).1 (List.mem_map_of_mem key hx)).2

/-- Keep-first dedup leaves pairwise distinct keys. -/
theorem dedupByAux_pairwise {α K : Type} [DecidableEq K] (key : α → K) :
    ∀ (l : List α) (seen : List K),
      (dedupByAux key seen l).Pairwise (fun a b => key a ≠ key b) := by
  intro l
  induction l with
  | nil => intro seen; simp [dedupByAux]
  | cons r rs ih =>
    intro seen
    by_cases hr : key r ∈ seen
    · rw [dedupByAux, if_pos hr]
      exact ih seen
    · rw [dedupByAux, if_neg hr]
      refine List.Pairwise.cons ?_ (ih (key r :: seen))
      intro b hb he
      exact dedupByAux_notin_seen key rs (key r :: seen) b hb
        (by rw [← he]; exact List.mem_cons_self _ _)

/-- The set of keys is preserved by keep-first dedup. -/
theorem mem_map_dedupBy {α K : Type} [DecidableEq K] (key : α → K)
    (l : List α) (k : K) :
    k ∈ (dedupBy key l).map key ↔ k ∈ l.map key := by
  rw [dedupBy, dedupByAux_key_mem]
  simp

/-- Inversion of `extract_vehicle_info`: everything a returned record
satisfies by construction. -/
theorem extract_inv (line : List Char) (r : Record)
    (h : extract_vehicle_info line = some r) :
    ¬ line.length < 200 ∧ fuelSignature line = some r.COMBUSTIBLE ∧
      r.COMBUSTIBLE ≠ sBEV ∧ r.MARCA = pyStrip (pySlice line 9 39) ∧
      r.MODELO = pyStrip (pySlice line 39 69) ∧
      r.VIN = pyStrip (pySlice line 69 92) ∧
      r.date = pyStrip (pySlice line 0 9) := by
  by_cases hlen : line.length < 200
  · rw [extract_vehicle_info, if_pos hlen] at h
    exact Option.noConfusion h
  · rw [extract_vehicle_info, if_neg hlen] at h
    cases hfs : fuelSignature line with
    | none =>
      rw [hfs] at h
      exact Option.noConfusion h
    | some comb =>
      rw [hfs] at h
      simp only at h
      split_ifs at h with h1 h2 h3
      rw [Option.some.injEq] at h
      subst h
      exact ⟨hlen, rfl, h3, rfl, rfl, rfl, rfl⟩

/-- Whenever the fuel-signature chain resolves, either one of the three
BEV patterns matched or the secondary ELECTRIC/E- signal holds. -/
theorem fuelSignature_cases (line c : List Char)
    (h : fuelSignature line = some c) :
    (searchCap p1At line).isSome = true ∨ (searchCap p2At line).isSome = true ∨
      (searchCap p3At line).isSome = true ∨ secondarySignal line = true := by
  cases h1 : searchCap p1At line with
  | some m => exact Or.inl rfl
  | none =>
  cases h2 : searchCap p2At line with
  | some m => exact Or.inr (Or.inl rfl)
  | none =>
  cases h3 : searchCap p3At line with
  | some m => exact Or.inr (Or.inr (Or.inl rfl))
  | none =>
  rw [fuelSignature, h1, h2, h3] at h
  right; right; right
  rw [secondarySignal]
  split_ifs at h with hA hB
  · simp only [Bool.and_eq_true] at hA
    simp only [Bool.and_eq_true, Bool.or_eq_true]
    exact ⟨Or.inl hA.1, hA.2⟩
  · simp only [Bool.and_eq_true] at hB
    simp only [Bool.and_eq_true, Bool.or_eq_true]
    exact ⟨Or.inr hB.1, hB.2⟩

/-- C1 counterexample: on `exCe1` a bare `BEV` is the trailing
whitespace-bounded token and a primary pattern matches, yet `is_ev`
returns true (through the secondary ELECTRIC signal), so the exclusion
rule does not dominate every other signal as the claim states. -/
theorem C1_counterexample :
    hasTrailingBareBEV exCe1 = true ∧ (searchCap p1At exCe1).isSome = true ∧
      is_ev exCe1 = true := by
  exact ⟨by decide, by decide, by decide⟩

/-- C1 (amended): when `BEV` is a trailing word-bounded token followed
only by line-end, the trailing-bare-BEV exclusion suppresses the
primary-pattern path completely, and `is_ev` equals exactly the
secondary ELECTRIC/E- signal (with the length gate). -/
theorem C1_amended_thm (line : List Char)
    (hx : hasTrailingBareBEV line = true) :
    is_ev line = (!decide (line.length < 200) && secondarySignal line) := by
  by_cases hlen : line.length < 200
  · simp [is_ev, hlen]
  · cases hp : ((searchCap p1At line).isSome || (searchCap p2At line).isSome
        || (searchCap p3At line).isSome) <;>
      simp [is_ev, hlen, hp, hx]

/-- Witness for C1: the amended characterization applied to `exW1`. -/
theorem C1_witness :
    hasTrailingBareBEV exW1 = true ∧
      is_ev exW1 = (!decide (exW1.length < 200) && secondarySignal exW1) :=
  ⟨by decide, C1_amended_thm exW1 (by decide)⟩

/-- C2 counterexample: a merged set in which no record has a non-empty
vin.  The claim says the dedup key is then `(make, model,
registration_date)` (keeping both records, whose makes differ), but the
code's dedup step always uses `(vin, registration_date)` and drops the
second record. -/
theorem C2_counterexample :
    recA.VIN = [] ∧ recB.VIN = [] ∧
      recA.registration_date = recB.registration_date ∧
      ¬ recA.MARCA = recB.MARCA ∧
      dedupCombined true [recA, recB] = [recA] ∧
      specDedup [recA, recB] = [recA, recB] ∧
      ¬ dedupCombined true [recA, recB] = specDedup [recA, recB] := by
  decide

/-- C2 (amended): the dedup key of the month aggregation is always
`(vin, registration_date)` (the VIN column is always present because
the extractor sets it unconditionally), so the order in which files are
discovered never changes the active key, and the set of surviving keys
is invariant under swapping the concatenation order of two file
outputs. -/
theorem C2_amended_thm (recs a b : List DatedRecord)
    (x : List Char × Nat × Nat × Nat) :
    dedupCombined true recs = dedupBy vinDateKey recs ∧
      (x ∈ (dedupCombined true (a ++ b)).map vinDateKey ↔
        x ∈ (dedupCombined true (b ++ a)).map vinDateKey) := by
  constructor
  · rfl
  · show x ∈ (dedupBy vinDateKey (a ++ b)).map vinDateKey ↔
      x ∈ (dedupBy vinDateKey (b ++ a)).map vinDateKey
    rw [mem_map_dedupBy, mem_map_dedupBy]
    simp only [List.map_append, List.mem_append]
    exact Or.comm

/-- C3 counterexample: on the scenario line whose make field is
`"0 TESLA"` (padded), `extract_vehicle_info` returns make `"0 TESLA"`:
no leading routing digit is stripped, contradicting the claimed make
`"TESLA"`. -/
theorem C3_counterexample :
    extract_vehicle_info exLine3 = some exRec3 ∧
      exRec3.MARCA = "0 TESLA".data ∧ ¬ exRec3.MARCA = "TESLA".data := by
  decide

/-- C3 (amended): the extractor only trims surrounding whitespace from
the positional make field (no routing-digit stripping exists); on the
scenario line it returns make `"0 TESLA"`, model `"MODEL3"` and
fuel signature `"1000BEV 123456"`. -/
theorem C3_amended_thm :
    (∀ (line : List Char) (r : Record), extract_vehicle_info line = some r →
        r.MARCA = pyStrip (pySlice line 9 39)) ∧
      extract_vehicle_info exLine3 = some exRec3 ∧
      exRec3.MARCA = "0 TESLA".data ∧ exRec3.MODELO = "MODEL3".data ∧
      exRec3.COMBUSTIBLE = "1000BEV 123456".data := by
  exact ⟨fun line r h => (extract_inv line r h).2.2.2.1,
    by decide, by decide, by decide, by decide⟩

/-- Witness for C3: the make-field equation applied to the scenario
line. -/
theorem C3_witness :
    extract_vehicle_info exLine3 = some exRec3 ∧
      exRec3.MARCA = pyStrip (pySlice exLine3 9 39) :=
  ⟨by decide, C3_amended_thm.1 exLine3 exRec3 (by decide)⟩

/-- C4: every record returned by the extractor has a fuel signature
produced by the resolution chain (pattern capture or fallback literal)
and that signature is never the bare string `"BEV"` — the validation
gate discards such records. -/
theorem C4_thm (line : List Char) (r : Record)
    (h : extract_vehicle_info line = some r) :
    fuelSignature line = some r.COMBUSTIBLE ∧ ¬ r.COMBUSTIBLE = sBEV :=
  ⟨(extract_inv line r h).2.1, (extract_inv line r h).2.2.1⟩

/-- Witness for C4 at the scenario line. -/
theorem C4_witness :
    extract_vehicle_info exLine3 = some exRec3 ∧
      (fuelSignature exLine3 = some exRec3.COMBUSTIBLE ∧
        ¬ exRec3.COMBUSTIBLE = sBEV) :=
  ⟨by decide, C4_thm exLine3 exRec3 (by decide)⟩

/-- C5 counterexample: on `exCe5` the extractor returns a record (a
primary pattern matches and make/model are non-empty) while `is_ev`
returns false (the trailing bare `BEV` suppresses the primary path and
no secondary signal is present) — the two components do not
independently agree. -/
theorem C5_counterexample :
    extract_vehicle_info exCe5 = some exRec5 ∧ is_ev exCe5 = false := by
  decide

/-- C5 (amended): for every line without a trailing bare `BEV` token,
a non-null extraction implies `is_ev` is true. -/
theorem C5_amended_thm (line : List Char) (r : Record)
    (hx : hasTrailingBareBEV line = false)
    (h : extract_vehicle_info line = some r) : is_ev line = true := by
  rcases extract_inv line r h with ⟨hlen, hfs, -⟩
  rcases fuelSignature_cases line r.COMBUSTIBLE hfs with h1 | h2 | h3 | hs
  · simp [is_ev, hlen, h1, hx]
  · simp [is_ev, hlen, h2, hx]
  · simp [is_ev, hlen, h3, hx]
  · cases hp : ((searchCap p1At line).isSome || (searchCap p2At line).isSome
        || (searchCap p3At line).isSome) <;>
      simp [is_ev, hlen, hp, hx, hs]

/-- Witness for C5 at the scenario line (no trailing bare `BEV`). -/
theorem C5_witness :
    hasTrailingBareBEV exLine3 = false ∧
      extract_vehicle_info exLine3 = some exRec3 ∧ is_ev exLine3 = true :=
  ⟨by decide, by decide, C5_amended_thm exLine3 exRec3 (by decide) (by decide)⟩

/-- C6: evaluating `process_file` at the failing input.  A normal run on
`exFile` yields the single record once, but when the primary pass
aborts after its only line and the fallback pass reprocesses the file,
the returned sequence contains the primary-pass record in front of the
fallback copy — the `records` accumulator is not reset in the `except`
branch, contradicting the specified no-mixing behaviour. -/
theorem C6_thm :
    process_file exFile = [exDated] ∧
      process_file_withFallback exFile 1 = [exDated, exDated] := by
  decide

/-- C7: a file whose name has no parseable 8-digit date yields no
records at all, and removing it from a month's file list does not
change the aggregated record set — the rest of the month is processed
normally. -/
theorem C7_thm (f : SourceFile) (h : parseFileDate f.name = none) :
    process_file f = [] ∧
      ∀ (a b : List SourceFile),
        monthRecords (a ++ f :: b) = monthRecords (a ++ b) := by
  have hpf : process_file f = [] := by rw [process_file, h]
  refine ⟨hpf, fun a b => ?_⟩
  rw [monthRecords, monthRecords, List.map_append, List.map_append,
    List.map_cons, hpf]
  rw [List.filter_append, List.filter_append, List.filter_cons]
  simp

/-- Witness for C7 at a file named `export_mat_2025.txt`. -/
theorem C7_witness :
    parseFileDate badFile.name = none ∧ process_file badFile = [] ∧
      monthRecords [exFile, badFile] = monthRecords [exFile] :=
  ⟨by decide, (C7_thm badFile (by decide)).1,
    (C7_thm badFile (by decide)).2 [exFile] []⟩

/-- C8: when the month's output already exists and `force` is false,
`process_month` returns the existing path, leaves the file system
unchanged (so the persisted output stays byte-identical) and reads no
source file. -/
theorem C8_thm (fs : FileSys) (y m : Nat) (csv : List Char)
    (h : fs.reports.lookup (outName y m) = some csv) :
    process_month fs y m false = (fs, outName y m, []) ∧
      (process_month fs y m false).1.reports.lookup (outName y m) = some csv := by
  have h1 : process_month fs y m false = (fs, outName y m, []) := by
    rw [process_month, h]
    rfl
  exact ⟨h1, by rw [h1]; exact h⟩

/-- Witness for C8 at a file system whose report already exists. -/
theorem C8_witness :
    exFs.reports.lookup (outName 2025 2) = some "OLDCSV".data ∧
      process_month exFs 2025 2 false = (exFs, outName 2025 2, []) :=
  ⟨by decide, (C8_thm exFs 2025 2 "OLDCSV".data (by decide)).1⟩

/-- C9: every line shorter than 200 characters is rejected by the
classifier before any pattern matching. -/
theorem C9_thm (line : List Char) (h : line.length < 200) :
    is_ev line = false := by
  rw [is_ev, if_pos h]

/-- Witness for C9 at a 2-character line. -/
theorem C9_witness :
    (['A', 'B'] : List Char).length < 200 ∧ is_ev ['A', 'B'] = false :=
  ⟨by decide, C9_thm ['A', 'B'] (by decide)⟩

/-- C10: every extracted record carries a `VIN` field (the positional
vin slice, possibly empty), the month aggregation always deduplicates
on `(vin, registration_date)`, and consequently the deduplicated set
never contains two records that both have an empty vin and the same
registration date — even with distinct makes and models. -/
theorem C10_thm :
    (∀ (line : List Char) (r : Record), extract_vehicle_info line = some r →
        r.VIN = pyStrip (pySlice line 69 92)) ∧
      ∀ (recs : List DatedRecord),
        (dedupCombined true recs).Pairwise
          (fun a b => ¬(a.VIN = [] ∧ b.VIN = [] ∧
            a.registration_date = b.registration_date)) := by
  constructor
  · exact fun line r h => (extract_inv line r h).2.2.2.2.2.1
  · intro recs
    have hp : (dedupBy vinDateKey recs).Pairwise
        (fun a b => vinDateKey a ≠ vinDateKey b) :=
      dedupByAux_pairwise vinDateKey recs []
    have he : dedupCombined true recs = dedupBy vinDateKey recs := rfl
    rw [he]
    exact hp.imp fun hne ⟨h1, h2, h3⟩ =>
      hne (by rw [vinDateKey, vinDateKey, h1, h2, h3])

/-- Witness for C10: the vin-field equation applied to the scenario
line. -/
theorem C10_witness :
    extract_vehicle_info exLine3 = some exRec3 ∧
      exRec3.VIN = pyStrip (pySlice exLine3 69 92) :=
  ⟨by decide, C10_thm.1 exLine3 exRec3 (by decide)⟩
